import Mathlib

/-!
Verification development for the composite-order managers of a Binance
futures bot (TWAP, OCO and Grid strategy managers).  The Python managers
are shallowly embedded: prices and quantities become `ℚ`, the mutable
order records become explicit state values, the exchange Gateway is
abstracted by the outcome of each call (success payloads / failures are
passed in as parameters) and every Gateway call that an operation issues
is collected in a trace list.  Statuses keep the exact lowercase strings
that the source stores ("active", "failed", "completed", "cancelled",
"completed_tp", "completed_sl", "filled"), and Gateway-reported order
statuses keep the exchange's uppercase strings ("FILLED", "CANCELED").
-/

namespace BinanceBot

/-- A primitive call issued against the exchange Gateway
(`binance_client.place_order` / `cancel_order`). -/
inductive GwCall where
  | placeLimit (symbol side : String) (quantity price : ℚ)
  | placeStopMarket (symbol side : String) (quantity stopPrice : ℚ)
  | placeMarket (symbol side : String) (quantity : ℚ)
  | cancelOrder (symbol : String) (orderId : Nat)
  deriving DecidableEq

/-! TWAP manager: src/twap.py -/

/-- The mutable part of a TWAP record that `execute_twap` touches, plus
bookkeeping: `attempts` counts the market-order slices placed via the
Gateway, and `inRegistry` records whether the record is still present in
`active_twap_orders`. -/
structure TwapState where
  status : String
  remaining : ℚ
  attempts : Nat
  inRegistry : Bool
  completedTime : Option ℚ
  deriving DecidableEq

/-- The slice loop of `execute_twap` (src/twap.py lines 152-163).  `ok i`
is whether the Gateway market order of cycle `i` succeeds
(`_execute_twap_chunk` returning truthy), and `cancelBefore i` is whether
a foreground `cancel_twap_order` wrote status `"cancelled"` during the
sleep before cycle `i`.  Each cycle: observe any cancellation, check the
status at the top, place the chunk (counting the attempt), on failure set
status `"failed"` and stop, on success decrement `remaining_quantity`. -/
def twapLoop (chunk : ℚ) (ok cancelBefore : Nat → Bool) :
    Nat → Nat → TwapState → TwapState
  | 0, _, s => s
  | fuel + 1, i, s =>
    let s1 := if cancelBefore i then { s with status := "cancelled" } else s
    if s1.status ≠ "active" then s1
    else if ok i then
      twapLoop chunk ok cancelBefore fuel (i + 1)
        { s1 with
          remaining := s1.remaining - chunk
          attempts := s1.attempts + 1 }
    else { s1 with status := "failed", attempts := s1.attempts + 1 }

/-- Function `execute_twap` (src/twap.py lines 145-171): recompute the
interval count and chunk size exactly as `place_twap_order` does, run the
slice loop, then unconditionally set status `"completed"`, stamp
`completed_time` and delete the record from `active_twap_orders`. -/
def execute_twap (totalQuantity : ℚ) (durationMinutes intervalSeconds : Nat)
    (ok cancelBefore : Nat → Bool) (now : ℚ) : TwapState :=
  let totalIntervals := max 1 (durationMinutes * 60 / intervalSeconds)
  let chunk := totalQuantity / (totalIntervals : ℚ)
  let s0 : TwapState :=
    { status := "active"
      remaining := totalQuantity
      attempts := 0
      inRegistry := true
      completedTime := none }
  let s := twapLoop chunk ok cancelBefore totalIntervals 0 s0
  { s with status := "completed", completedTime := some now, inRegistry := false }

/-- Function `cancel_twap_order` (src/twap.py lines 181-196): fails when
the id is no longer in `active_twap_orders`; otherwise writes status
`"cancelled"` and `completed_time` and returns success. -/
def cancel_twap_order (s : TwapState) (now : ℚ) : Bool × TwapState :=
  if s.inRegistry then
    (true, { s with status := "cancelled", completedTime := some now })
  else (false, s)

/-- The spec's TWAP test vector: total 100, duration 5 minutes, interval
60 s (5 slices of 20), first three slices succeed, the fourth Gateway
placement fails, no foreground cancel. -/
def twapRunC1 : TwapState :=
  execute_twap 100 5 60 (fun i => decide (i < 3)) (fun _ => false) 1000

/-- TWAP run in which every slice succeeds and nothing is cancelled. -/
def twapRunC2 : TwapState :=
  execute_twap 100 5 60 (fun _ => true) (fun _ => false) 1000

/-- TWAP run in which the first two slices succeed and a foreground
cancel lands during the sleep before the third cycle. -/
def twapRunC3 : TwapState :=
  execute_twap 100 5 60 (fun _ => true) (fun i => decide (i = 2)) 1000

/-- A TWAP record state midway through execution: two slices done, still
registered and active. -/
def twapMidState : TwapState :=
  { status := "active", remaining := 60, attempts := 2
    inRegistry := true, completedTime := none }

/-! Grid records and the retention sweep: src/grid.py -/

/-- One leg of a grid composite order (an element of the record's
`orders` list in `place_grid_order` / `_place_replacement_order`). -/
structure GridLeg where
  order_id : Nat
  side : String
  price : ℚ
  quantity : ℚ
  status : String
  deriving DecidableEq

/-- A grid composite-order record as stored in `active_grid_orders`. -/
structure GridRecord where
  symbol : String
  grid_count : Nat
  price_range_min : ℚ
  price_range_max : ℚ
  total_quantity : ℚ
  quantity_per_level : ℚ
  price_step : ℚ
  orders : List GridLeg
  status : String
  created_time : ℚ
  completed_time : Option ℚ
  deriving DecidableEq

/-- Function `cleanup_completed_grid_orders` (src/grid.py lines 381-405),
the retention sweep: collect every record whose status is not `"active"`
and whose age (measured from `completed_time`, falling back to
`created_time`) strictly exceeds `max_age_hours * 3600`, then delete
those records; equivalently, keep the complement. -/
def cleanup_completed_grid_orders (now maxAgeHours : ℚ)
    (reg : List (Nat × GridRecord)) : List (Nat × GridRecord) :=
  reg.filter fun p =>
    !(decide (p.2.status ≠ "active" ∧
        now - (p.2.completed_time.getD p.2.created_time) > maxAgeHours * 3600))

/-! OCO manager: src/oco.py -/

/-- An OCO composite-order record as stored in `active_oco_orders`
(`tpOrderId` / `slOrderId` are the Gateway ids of the two legs). -/
structure OcoRecord where
  symbol : String
  side : String
  quantity : ℚ
  tpOrderId : Nat
  slOrderId : Nat
  take_profit_price : ℚ
  stop_loss_price : ℚ
  status : String
  created_time : ℚ
  completed_time : Option ℚ
  deriving DecidableEq

/-- Function `place_oco_order` (src/oco.py lines 44-132).  `tpResult` /
`slResult` are the Gateway's answers (the assigned order id, or `none`
for failure) to the take-profit and stop-loss placements.  Returns the
trace of Gateway calls issued and the record inserted into
`active_oco_orders` (`none` when the creation failed and nothing was
recorded). -/
def place_oco_order (symbol side : String) (quantity tpPrice slPrice : ℚ)
    (tpResult slResult : Option Nat) (now : ℚ) : List GwCall × Option OcoRecord :=
  match tpResult with
  | none => ([GwCall.placeLimit symbol side quantity tpPrice], none)
  | some tpId =>
    match slResult with
    | none =>
      ([GwCall.placeLimit symbol side quantity tpPrice,
        GwCall.placeStopMarket symbol side quantity slPrice,
        GwCall.cancelOrder symbol tpId], none)
    | some slId =>
      ([GwCall.placeLimit symbol side quantity tpPrice,
        GwCall.placeStopMarket symbol side quantity slPrice],
       some { symbol := symbol, side := side, quantity := quantity
              tpOrderId := tpId, slOrderId := slId
              take_profit_price := tpPrice, stop_loss_price := slPrice
              status := "active", created_time := now, completed_time := none })

/-- The monitor-visible part of an OCO record plus bookkeeping:
cumulative Gateway cancel calls issued against each leg, and the number
of poll cycles run so far. -/
structure OcoMonitorState where
  status : String
  tpCancelCalls : Nat
  slCancelCalls : Nat
  cyclesRun : Nat
  deriving DecidableEq

/-- One poll cycle of `monitor_oco` (src/oco.py lines 178-207).  `tp` and
`sl` are the Gateway-reported statuses of the two legs (`none` when the
status check itself failed).  The branches follow the source order:
take-profit FILLED first, then stop-loss FILLED, then external
cancellation of either leg; `_cancel_remaining_order` issues exactly one
Gateway cancel, counted per leg. -/
def monitor_oco_cycle (tp sl : Option String) (s : OcoMonitorState) : OcoMonitorState :=
  if tp = some "FILLED" then
    { s with slCancelCalls := s.slCancelCalls + 1, status := "completed_tp" }
  else if sl = some "FILLED" then
    { s with tpCancelCalls := s.tpCancelCalls + 1, status := "completed_sl" }
  else if tp = some "CANCELED" ∨ sl = some "CANCELED" then
    if tp = some "CANCELED" then
      { s with slCancelCalls := s.slCancelCalls + 1, status := "cancelled" }
    else
      { s with tpCancelCalls := s.tpCancelCalls + 1, status := "cancelled" }
  else s

/-- The `monitor_oco` polling loop (src/oco.py lines 167-210): while the
record's status is `"active"` (and fuel remains), poll both legs
(`obs i` is what cycle `i` observes) and apply the cycle rules. -/
def monitor_oco (obs : Nat → Option String × Option String) :
    Nat → OcoMonitorState → OcoMonitorState
  | 0, s => s
  | fuel + 1, s =>
    if s.status ≠ "active" then s
    else
      monitor_oco obs fuel
        (monitor_oco_cycle (obs s.cyclesRun).1 (obs s.cyclesRun).2
          { s with cyclesRun := s.cyclesRun + 1 })

/-- The monitor state of a freshly created, still-active OCO order. -/
def ocoMonitorInit : OcoMonitorState :=
  { status := "active", tpCancelCalls := 0, slCancelCalls := 0, cyclesRun := 0 }

/-- Result of a foreground cancel call: the returned boolean, the updated
record (as left in the registry) and the Gateway calls issued. -/
structure CancelResult (α : Type) where
  ok : Bool
  record : Option α
  calls : List GwCall
  deriving DecidableEq

/-- Function `cancel_oco_order` (src/oco.py lines 257-287): unknown id
fails with no Gateway call; a non-`"active"` record fails with no Gateway
call; otherwise both legs are cancelled (two Gateway calls) and the
record is marked `"cancelled"` exactly when at least one leg cancel
succeeded. -/
def cancel_oco_order (rec : Option OcoRecord) (tpCancelOk slCancelOk : Bool)
    (now : ℚ) : CancelResult OcoRecord :=
  match rec with
  | none => ⟨false, none, []⟩
  | some o =>
    if o.status ≠ "active" then ⟨false, some o, []⟩
    else
      let calls := [GwCall.cancelOrder o.symbol o.tpOrderId,
                    GwCall.cancelOrder o.symbol o.slOrderId]
      if tpCancelOk || slCancelOk then
        ⟨true, some { o with status := "cancelled", completed_time := some now }, calls⟩
      else ⟨false, some o, calls⟩

/-- An already-cancelled OCO record. -/
def ocoCancelledEx : OcoRecord :=
  { symbol := "ETHUSDT", side := "SELL", quantity := 2, tpOrderId := 21, slOrderId := 22
    take_profit_price := 120, stop_loss_price := 80, status := "cancelled"
    created_time := 0, completed_time := some 5 }

/-! Grid manager operations: src/grid.py -/

/-- The initial legs placed by `place_grid_order` (src/grid.py lines
74-107): one Gateway limit order per level `i < grid_count` at price
`price_range_min + i * price_step`, BUY below the midpoint and SELL at or
above it; a level whose placement fails (`placeResult i = none`) is
simply omitted. -/
def gridLegsPlaced (cnt : Nat) (pmin pmax qpl : ℚ)
    (placeResult : Nat → Option Nat) : List GridLeg :=
  (List.range cnt).filterMap fun i =>
    (placeResult i).map fun oid =>
      { order_id := oid
        side := if pmin + (i : ℚ) * ((pmax - pmin) / ((cnt : ℚ) - 1)) <
            (pmin + pmax) / 2 then "BUY" else "SELL"
        price := pmin + (i : ℚ) * ((pmax - pmin) / ((cnt : ℚ) - 1))
        quantity := qpl
        status := "active" }

/-- Function `place_grid_order` (src/grid.py lines 43-150): reject
`grid_count < 2` and `price_range_min ≥ price_range_max`; place the level
legs; fail if every placement failed; otherwise insert the record. -/
def place_grid_order (symbol : String) (cnt : Nat) (pmin pmax totalQty : ℚ)
    (placeResult : Nat → Option Nat) (now : ℚ) : Option GridRecord :=
  if cnt < 2 then none
  else if pmax ≤ pmin then none
  else if gridLegsPlaced cnt pmin pmax (totalQty / (cnt : ℚ)) placeResult = [] then none
  else some
    { symbol := symbol, grid_count := cnt, price_range_min := pmin
      price_range_max := pmax, total_quantity := totalQty
      quantity_per_level := totalQty / (cnt : ℚ)
      price_step := (pmax - pmin) / ((cnt : ℚ) - 1)
      orders := gridLegsPlaced cnt pmin pmax (totalQty / (cnt : ℚ)) placeResult
      status := "active", created_time := now, completed_time := none }

/-- Result of `_place_replacement_order`: the updated grid record and
whether a Gateway placement call was issued. -/
structure ReplacementResult where
  grid : GridRecord
  gatewayCalled : Bool
  deriving DecidableEq

/-- Function `_place_replacement_order` (src/grid.py lines 216-265): a
filled BUY leg is replaced by a SELL leg one `price_step` above, a filled
SELL leg by a BUY leg one `price_step` below, carrying the filled leg's
quantity; a replacement price outside `[price_range_min,
price_range_max]` is dropped before any Gateway call; a failed placement
(`placeResult = none`) leaves the record unchanged. -/
def place_replacement_order (g : GridRecord) (filled : GridLeg)
    (placeResult : Option Nat) : ReplacementResult :=
  let newSide := if filled.side = "BUY" then "SELL" else "BUY"
  let newPrice := if filled.side = "BUY" then filled.price + g.price_step
    else filled.price - g.price_step
  if newPrice < g.price_range_min ∨ g.price_range_max < newPrice then ⟨g, false⟩
  else
    match placeResult with
    | none => ⟨g, true⟩
    | some oid =>
      ⟨{ g with orders := g.orders ++
          [{ order_id := oid, side := newSide, price := newPrice
             quantity := filled.quantity, status := "active" }] }, true⟩

/-- A three-level grid over `[10, 20]` in which every Gateway placement
succeeded: legs at 10 (BUY), 15 (SELL) and 20 (SELL), one unit each. -/
def gridRecEx : GridRecord :=
  { symbol := "BTCUSDT", grid_count := 3, price_range_min := 10, price_range_max := 20
    total_quantity := 3, quantity_per_level := 1, price_step := 5
    orders := [{ order_id := 1, side := "BUY", price := 10, quantity := 1, status := "active" },
               { order_id := 2, side := "SELL", price := 15, quantity := 1, status := "active" },
               { order_id := 3, side := "SELL", price := 20, quantity := 1, status := "active" }]
    status := "active", created_time := 0, completed_time := none }

/-- Total quantity of one side's filled legs (the `buy_volume` /
`sell_volume` sums of `get_grid_performance`, src/grid.py lines 356-359). -/
def filled_volume (g : GridRecord) (side : String) : ℚ :=
  ((g.orders.filter fun l => decide (l.status = "filled" ∧ l.side = side)).map
    fun l => l.quantity).sum

/-- Total price × quantity over one side's filled legs (the numerator of
the average-price computation, src/grid.py lines 361-364). -/
def filled_notional (g : GridRecord) (side : String) : ℚ :=
  ((g.orders.filter fun l => decide (l.status = "filled" ∧ l.side = side)).map
    fun l => l.price * l.quantity).sum

/-- The snapshot returned by `get_grid_performance`. -/
structure GridPerformance where
  total_filled_orders : Nat
  total_volume : ℚ
  buy_volume : ℚ
  sell_volume : ℚ
  avg_buy_price : ℚ
  avg_sell_price : ℚ
  spread : ℚ
  deriving DecidableEq

/-- Function `get_grid_performance` (src/grid.py lines 343-379), on the
record the id resolves to: per-side volumes, average prices computed with
the source's `max(volume, 1)` denominator, and the guarded spread. -/
def get_grid_performance (g : GridRecord) : GridPerformance :=
  { total_filled_orders := (g.orders.filter fun l => decide (l.status = "filled")).length
    total_volume :=
      ((g.orders.filter fun l => decide (l.status = "filled")).map fun l => l.quantity).sum
    buy_volume := filled_volume g "BUY"
    sell_volume := filled_volume g "SELL"
    avg_buy_price := filled_notional g "BUY" / max (filled_volume g "BUY") 1
    avg_sell_price := filled_notional g "SELL" / max (filled_volume g "SELL") 1
    spread :=
      if filled_notional g "SELL" / max (filled_volume g "SELL") 1 > 0 ∧
          filled_notional g "BUY" / max (filled_volume g "BUY") 1 > 0 then
        filled_notional g "SELL" / max (filled_volume g "SELL") 1 -
          filled_notional g "BUY" / max (filled_volume g "BUY") 1
      else 0 }

/-- The claim's volume-weighted average price of a side's filled legs:
total filled notional divided by total filled volume (comparison
definition following the spec's words, for the refinement check). -/
def vwap_of_side (g : GridRecord) (side : String) : ℚ :=
  filled_notional g side / filled_volume g side

/-- A grid with one filled BUY leg (price 10, quantity 1/2) and one
filled SELL leg (price 20, quantity 1/2). -/
def gridPerfEx : GridRecord :=
  { symbol := "BTCUSDT", grid_count := 2, price_range_min := 10, price_range_max := 20
    total_quantity := 1, quantity_per_level := 1/2, price_step := 10
    orders := [{ order_id := 1, side := "BUY", price := 10, quantity := 1/2, status := "filled" },
               { order_id := 2, side := "SELL", price := 20, quantity := 1/2, status := "filled" }]
    status := "active", created_time := 0, completed_time := none }

/-- A grid with one filled BUY leg and one filled SELL leg of quantity 1
each. -/
def gridPerfEx2 : GridRecord :=
  { symbol := "BTCUSDT", grid_count := 2, price_range_min := 10, price_range_max := 20
    total_quantity := 2, quantity_per_level := 1, price_step := 10
    orders := [{ order_id := 1, side := "BUY", price := 10, quantity := 1, status := "filled" },
               { order_id := 2, side := "SELL", price := 20, quantity := 1, status := "filled" }]
    status := "active", created_time := 0, completed_time := none }

/-- Function `cancel_grid_order` (src/grid.py lines 267-294): no status
check at all — for any registered grid it issues one Gateway cancel per
leg still recorded `"active"` (marking those whose cancel succeeded),
then sets the composite status `"cancelled"` and overwrites
`completed_time`, returning success. -/
def cancel_grid_order (rec : Option GridRecord) (cancelOk : Nat → Bool)
    (now : ℚ) : CancelResult GridRecord :=
  match rec with
  | none => ⟨false, none, []⟩
  | some g =>
    ⟨true,
     some { g with
        orders := g.orders.map fun l =>
          if l.status = "active" ∧ cancelOk l.order_id then
            { l with status := "cancelled" }
          else l
        status := "cancelled", completed_time := some now },
     (g.orders.filter fun l => decide (l.status = "active")).map
       fun l => GwCall.cancelOrder g.symbol l.order_id⟩

/-- A grid record that is already cancelled but still holds one leg
recorded `"active"` (its earlier Gateway cancel failed). -/
def gridCancelledEx : GridRecord :=
  { symbol := "BTCUSDT", grid_count := 2, price_range_min := 10, price_range_max := 20
    total_quantity := 2, quantity_per_level := 1, price_step := 10
    orders := [{ order_id := 7, side := "BUY", price := 12, quantity := 1, status := "active" }]
    status := "cancelled", created_time := 0, completed_time := some 50 }

/-! Theorems.  Claim theorems are named `..._cN`; helper lemmas and the
claim witnesses follow each claim. -/

/-- C1: on the spec's own vector (slice 4 of 5 fails) the loop does stop
— exactly 4 slices are attempted and `remaining_quantity` stays at 40,
never decremented for the failed slice — but the epilogue of
`execute_twap` then overwrites the freshly written `"failed"` status with
`"completed"` and deletes the record, so the composite order's final
status is not FAILED as the claim requires. -/
theorem twap_slice_failure_final_status_c1 :
    twapRunC1.attempts = 4 ∧
    twapRunC1.remaining = 40 ∧
    twapRunC1.status = "completed" ∧
    twapRunC1.status ≠ "failed" ∧
    twapRunC1.inRegistry = false := by
  norm_num [twapRunC1, execute_twap, twapLoop]
  decide

/-- C2 counterexample: after a TWAP Monitor finishes (here: all five
slices of the spec's vector succeed), the record has already been deleted
from `active_twap_orders` by `execute_twap` itself, so it does not remain
present and queryable until a sweep evicts it. -/
theorem twap_record_gone_after_monitor_c2_counterexample :
    twapRunC2.status ≠ "active" ∧ twapRunC2.inRegistry = false := by
  norm_num [twapRunC2, execute_twap, twapLoop]
  decide

/-- C2 (amended): the sweep removes exactly the records whose status is
terminal and whose completion time is more than `max_age` old, and never
removes a record whose status is `"active"`, regardless of age; but for
TWAP the Monitor itself always deletes the record from the registry when
its execution loop ends, so a TWAP record does not survive its Monitor. -/
theorem registry_removal_sweep_c2 :
    (∀ (now maxAgeHours : ℚ) (reg : List (Nat × GridRecord)) (p : Nat × GridRecord),
        p ∈ cleanup_completed_grid_orders now maxAgeHours reg ↔
          p ∈ reg ∧ ¬ (p.2.status ≠ "active" ∧
            now - (p.2.completed_time.getD p.2.created_time) > maxAgeHours * 3600)) ∧
    (∀ (now maxAgeHours : ℚ) (reg : List (Nat × GridRecord)) (p : Nat × GridRecord),
        p ∈ reg → p.2.status = "active" →
          p ∈ cleanup_completed_grid_orders now maxAgeHours reg) ∧
    (∀ (tq : ℚ) (dm is : Nat) (ok cb : Nat → Bool) (now : ℚ),
        (execute_twap tq dm is ok cb now).inRegistry = false) := by
  refine ⟨?_, ?_, ?_⟩
  · intro now maxAgeHours reg p
    simp only [cleanup_completed_grid_orders, List.mem_filter,
      Bool.not_eq_eq_eq_not, Bool.not_true, decide_eq_false_iff_not]
  · intro now maxAgeHours reg p hp hact
    simp [cleanup_completed_grid_orders, List.mem_filter, hp, hact]
  · intro tq dm is ok cb now
    simp [execute_twap]

/-- Witness for C2: on a one-record registry holding an ACTIVE grid
record created long ago, the sweep keeps the record. -/
theorem registry_removal_sweep_c2_witness :
    (1, ({ symbol := "BTCUSDT", grid_count := 2, price_range_min := 10,
           price_range_max := 20, total_quantity := 1, quantity_per_level := 1/2,
           price_step := 10, orders := [], status := "active", created_time := 0,
           completed_time := none } : GridRecord)) ∈
      cleanup_completed_grid_orders 1000000 24
        [(1, { symbol := "BTCUSDT", grid_count := 2, price_range_min := 10,
               price_range_max := 20, total_quantity := 1, quantity_per_level := 1/2,
               price_step := 10, orders := [], status := "active", created_time := 0,
               completed_time := none })] :=
  registry_removal_sweep_c2.2.1 1000000 24 _ _ (by simp) rfl

/-- C3: `cancel_twap_order` on a registered order does set status
`"cancelled"` (and the Monitor, observing it at the top of cycle 2 of
`twapRunC3`, places no further slices: exactly 2 attempts); but the
epilogue of `execute_twap` then overwrites the status with `"completed"`
and deletes the record, so CANCELLED does not persist as the terminal
status. -/
theorem twap_cancel_not_persistent_c3 :
    (cancel_twap_order twapMidState 500).1 = true ∧
    (cancel_twap_order twapMidState 500).2.status = "cancelled" ∧
    twapRunC3.attempts = 2 ∧
    twapRunC3.status = "completed" ∧
    twapRunC3.status ≠ "cancelled" ∧
    twapRunC3.inRegistry = false := by
  norm_num [cancel_twap_order, twapMidState, twapRunC3, execute_twap, twapLoop]
  decide

/-- Once the status is terminal the monitor loop does nothing more. -/
lemma monitor_oco_of_terminal (obs : Nat → Option String × Option String)
    (fuel : Nat) (s : OcoMonitorState) (h : s.status ≠ "active") :
    monitor_oco obs fuel s = s := by
  cases fuel with
  | zero => rfl
  | succ n => simp [monitor_oco, h]

/-- C4: the OCO resolution rules apply in source order — (a) take-profit
FILLED wins first (even when the stop-loss is also FILLED in the same
cycle) and issues exactly one cancel against the stop-loss leg, ending
`"completed_tp"`; (b) otherwise stop-loss FILLED cancels the take-profit
leg, ending `"completed_sl"`; (c) otherwise an externally CANCELED leg
makes the monitor cancel the other leg and end `"cancelled"`; a terminal
status stops the loop with no further polling; and a full run whose first
observation reports the take-profit FILLED ends after exactly one cycle
with exactly one stop-loss cancel and no take-profit cancel. -/
theorem oco_resolution_priority_c4 :
    (∀ (tp sl : Option String) (s : OcoMonitorState), tp = some "FILLED" →
        monitor_oco_cycle tp sl s =
          { s with slCancelCalls := s.slCancelCalls + 1, status := "completed_tp" }) ∧
    (∀ (tp sl : Option String) (s : OcoMonitorState),
        tp ≠ some "FILLED" → sl = some "FILLED" →
        monitor_oco_cycle tp sl s =
          { s with tpCancelCalls := s.tpCancelCalls + 1, status := "completed_sl" }) ∧
    (∀ (tp sl : Option String) (s : OcoMonitorState),
        tp ≠ some "FILLED" → sl ≠ some "FILLED" → tp = some "CANCELED" →
        monitor_oco_cycle tp sl s =
          { s with slCancelCalls := s.slCancelCalls + 1, status := "cancelled" }) ∧
    (∀ (tp sl : Option String) (s : OcoMonitorState),
        tp ≠ some "FILLED" → sl ≠ some "FILLED" → tp ≠ some "CANCELED" →
        sl = some "CANCELED" →
        monitor_oco_cycle tp sl s =
          { s with tpCancelCalls := s.tpCancelCalls + 1, status := "cancelled" }) ∧
    (∀ (obs : Nat → Option String × Option String) (fuel : Nat) (s : OcoMonitorState),
        s.status ≠ "active" → monitor_oco obs fuel s = s) ∧
    (∀ (obs : Nat → Option String × Option String) (fuel : Nat),
        (obs 0).1 = some "FILLED" →
        monitor_oco obs (fuel + 1) ocoMonitorInit =
          { status := "completed_tp", tpCancelCalls := 0
            slCancelCalls := 1, cyclesRun := 1 }) := by
  refine ⟨?_, ?_, ?_, ?_, monitor_oco_of_terminal, ?_⟩
  · intro tp sl s h
    simp [monitor_oco_cycle, h]
  · intro tp sl s h1 h2
    simp [monitor_oco_cycle, h1, h2]
  · intro tp sl s h1 h2 h3
    simp [monitor_oco_cycle, h1, h2, h3]
  · intro tp sl s h1 h2 h3 h4
    simp [monitor_oco_cycle, h1, h2, h3, h4]
  · intro obs fuel h
    rw [monitor_oco]
    simp only [ocoMonitorInit, ne_eq, not_true_eq_false, if_false, ite_false]
    rw [monitor_oco_cycle]
    simp only [h, if_true, ite_true]
    exact monitor_oco_of_terminal obs fuel _ (by simp)

/-- Witness for C4: both legs observed FILLED in the first cycle resolves
deterministically to take-profit priority with a single stop-loss
cancel. -/
theorem oco_resolution_priority_c4_witness :
    monitor_oco (fun _ => (some "FILLED", some "FILLED")) 5 ocoMonitorInit =
      { status := "completed_tp", tpCancelCalls := 0
        slCancelCalls := 1, cyclesRun := 1 } :=
  oco_resolution_priority_c4.2.2.2.2.2 (fun _ => (some "FILLED", some "FILLED")) 4 rfl

/-- C5: OCO creation is atomic-or-rolled-back — when the take-profit
placement fails, the only Gateway call issued is that placement and no
record is inserted; when the take-profit leg succeeds but the stop-loss
placement fails, the creation issues a best-effort cancel of the placed
take-profit leg and still inserts no record. -/
theorem oco_create_rollback_c5 :
    (∀ (symbol side : String) (quantity tpPrice slPrice : ℚ)
        (slResult : Option Nat) (now : ℚ),
        place_oco_order symbol side quantity tpPrice slPrice none slResult now =
          ([GwCall.placeLimit symbol side quantity tpPrice], none)) ∧
    (∀ (symbol side : String) (quantity tpPrice slPrice : ℚ) (tpId : Nat) (now : ℚ),
        place_oco_order symbol side quantity tpPrice slPrice (some tpId) none now =
          ([GwCall.placeLimit symbol side quantity tpPrice,
            GwCall.placeStopMarket symbol side quantity slPrice,
            GwCall.cancelOrder symbol tpId], none)) :=
  ⟨fun _ _ _ _ _ _ _ => rfl, fun _ _ _ _ _ _ _ => rfl⟩

/-- C6: cancelling a non-ACTIVE OCO order fails and issues no Gateway
calls; cancelling an ACTIVE one issues exactly one cancel per leg and
sets status `"cancelled"` iff at least one leg cancel succeeds (the
record is unchanged when both fail); hence a second cancel after a
successful one returns failure with no Gateway calls. -/
theorem oco_cancel_idempotent_c6 :
    (∀ (o : OcoRecord) (tOk sOk : Bool) (now : ℚ), o.status ≠ "active" →
        cancel_oco_order (some o) tOk sOk now = ⟨false, some o, []⟩) ∧
    (∀ (o : OcoRecord) (tOk sOk : Bool) (now : ℚ), o.status = "active" →
        (cancel_oco_order (some o) tOk sOk now).calls =
          [GwCall.cancelOrder o.symbol o.tpOrderId,
           GwCall.cancelOrder o.symbol o.slOrderId]) ∧
    (∀ (o : OcoRecord) (tOk sOk : Bool) (now : ℚ), o.status = "active" →
        (tOk || sOk) = true →
        cancel_oco_order (some o) tOk sOk now =
          ⟨true, some { o with status := "cancelled", completed_time := some now },
           [GwCall.cancelOrder o.symbol o.tpOrderId,
            GwCall.cancelOrder o.symbol o.slOrderId]⟩) ∧
    (∀ (o : OcoRecord) (now : ℚ), o.status = "active" →
        cancel_oco_order (some o) false false now =
          ⟨false, some o,
           [GwCall.cancelOrder o.symbol o.tpOrderId,
            GwCall.cancelOrder o.symbol o.slOrderId]⟩) ∧
    (∀ (o o2 : OcoRecord) (tOk sOk tOk2 sOk2 : Bool) (now now2 : ℚ),
        o.status = "active" → (tOk || sOk) = true →
        (cancel_oco_order (some o) tOk sOk now).record = some o2 →
        cancel_oco_order (some o2) tOk2 sOk2 now2 = ⟨false, some o2, []⟩) := by
  refine ⟨?_, ?_, ?_, ?_, ?_⟩
  · intro o tOk sOk now h
    simp [cancel_oco_order, h]
  · intro o tOk sOk now h
    by_cases hok : (tOk || sOk) = true <;>
      simp [cancel_oco_order, h, hok]
  · intro o tOk sOk now h hok
    simp [cancel_oco_order, h, hok]
  · intro o now h
    simp [cancel_oco_order, h]
  · intro o o2 tOk sOk tOk2 sOk2 now now2 h hok hrec
    have : o2 = { o with status := "cancelled", completed_time := some now } := by
      simp [cancel_oco_order, h, hok] at hrec
      exact hrec.symm
    subst this
    simp [cancel_oco_order]

/-- Witness for C6: a concrete already-cancelled OCO record; cancelling
it again fails with no Gateway calls. -/
theorem oco_cancel_idempotent_c6_witness :
    cancel_oco_order
        (some { symbol := "BTCUSDT", side := "SELL", quantity := 1, tpOrderId := 11
                slOrderId := 12, take_profit_price := 110, stop_loss_price := 90
                status := "cancelled", created_time := 0, completed_time := some 5 })
        true true 7 =
      ⟨false,
       some { symbol := "BTCUSDT", side := "SELL", quantity := 1, tpOrderId := 11
              slOrderId := 12, take_profit_price := 110, stop_loss_price := 90
              status := "cancelled", created_time := 0, completed_time := some 5 },
       []⟩ :=
  oco_cancel_idempotent_c6.1 _ true true 7 (by decide)

/-- C7: replacement legs are placed exactly one `price_step` away from
the filled leg, on the opposite side, with the filled leg's quantity; a
replacement price outside the configured range issues no Gateway call and
changes nothing; a replacement whose Gateway placement fails leaves the
record (legs and statuses) unchanged. -/
theorem grid_replacement_leg_c7 :
    (∀ (g : GridRecord) (l : GridLeg) (oid : Nat), l.side = "BUY" →
        g.price_range_min ≤ l.price + g.price_step →
        l.price + g.price_step ≤ g.price_range_max →
        place_replacement_order g l (some oid) =
          ⟨{ g with orders := g.orders ++
              [{ order_id := oid, side := "SELL", price := l.price + g.price_step
                 quantity := l.quantity, status := "active" }] }, true⟩) ∧
    (∀ (g : GridRecord) (l : GridLeg) (oid : Nat), l.side = "SELL" →
        g.price_range_min ≤ l.price - g.price_step →
        l.price - g.price_step ≤ g.price_range_max →
        place_replacement_order g l (some oid) =
          ⟨{ g with orders := g.orders ++
              [{ order_id := oid, side := "BUY", price := l.price - g.price_step
                 quantity := l.quantity, status := "active" }] }, true⟩) ∧
    (∀ (g : GridRecord) (l : GridLeg) (r : Option Nat), l.side = "BUY" →
        (l.price + g.price_step < g.price_range_min ∨
          g.price_range_max < l.price + g.price_step) →
        place_replacement_order g l r = ⟨g, false⟩) ∧
    (∀ (g : GridRecord) (l : GridLeg) (r : Option Nat), l.side = "SELL" →
        (l.price - g.price_step < g.price_range_min ∨
          g.price_range_max < l.price - g.price_step) →
        place_replacement_order g l r = ⟨g, false⟩) ∧
    (∀ (g : GridRecord) (l : GridLeg),
        (place_replacement_order g l none).grid = g) := by
  refine ⟨?_, ?_, ?_, ?_, ?_⟩
  · intro g l oid hside h1 h2
    simp [place_replacement_order, hside, not_lt.mpr h1, not_lt.mpr h2]
  · intro g l oid hside h1 h2
    simp [place_replacement_order, hside, not_lt.mpr h1, not_lt.mpr h2]
  · intro g l r hside hout
    simp [place_replacement_order, hside, hout]
  · intro g l r hside hout
    simp [place_replacement_order, hside, hout]
  · intro g l
    rw [place_replacement_order]
    split <;> split <;> rfl

/-- Witness for C7: replacing the filled BUY leg at price 10 of the
three-level grid appends a SELL leg at 15. -/
theorem grid_replacement_leg_c7_witness :
    place_replacement_order gridRecEx (GridLeg.mk 1 "BUY" 10 1 "filled") (some 9) =
      ⟨{ gridRecEx with orders := gridRecEx.orders ++
          [{ order_id := 9, side := "SELL"
             price := (GridLeg.mk 1 "BUY" 10 1 "filled").price + gridRecEx.price_step
             quantity := (GridLeg.mk 1 "BUY" 10 1 "filled").quantity
             status := "active" }] }, true⟩ :=
  grid_replacement_leg_c7.1 gridRecEx (GridLeg.mk 1 "BUY" 10 1 "filled") 9 rfl
    (by norm_num [gridRecEx]) (by norm_num [gridRecEx])

/-- With at least two levels and a proper range, every level price
`pmin + i * step` for `i < cnt` lies inside `[pmin, pmax]`. -/
lemma grid_level_price_bounds (cnt : Nat) (pmin pmax : ℚ) (h2 : 2 ≤ cnt)
    (hlt : pmin < pmax) (i : Nat) (hi : i < cnt) :
    pmin ≤ pmin + (i : ℚ) * ((pmax - pmin) / ((cnt : ℚ) - 1)) ∧
    pmin + (i : ℚ) * ((pmax - pmin) / ((cnt : ℚ) - 1)) ≤ pmax := by
  have hc1 : (1 : ℚ) ≤ (cnt : ℚ) - 1 := by
    have h2q : (2 : ℚ) ≤ (cnt : ℚ) := by exact_mod_cast h2
    linarith
  have hstep : 0 ≤ (pmax - pmin) / ((cnt : ℚ) - 1) :=
    div_nonneg (by linarith) (by linarith)
  have hi0 : (0 : ℚ) ≤ (i : ℚ) := Nat.cast_nonneg i
  constructor
  · nlinarith [mul_nonneg hi0 hstep]
  · have hi' : (i : ℚ) ≤ (cnt : ℚ) - 1 := by
      have hic : (i : ℚ) + 1 ≤ (cnt : ℚ) := by exact_mod_cast hi
      linarith
    have hmul : (i : ℚ) * ((pmax - pmin) / ((cnt : ℚ) - 1)) ≤
        ((cnt : ℚ) - 1) * ((pmax - pmin) / ((cnt : ℚ) - 1)) :=
      mul_le_mul_of_nonneg_right hi' hstep
    have heq : ((cnt : ℚ) - 1) * ((pmax - pmin) / ((cnt : ℚ) - 1)) = pmax - pmin := by
      field_simp
    linarith

/-- C8: a successfully created grid has
`price_step = (pmax − pmin) / (cnt − 1)` and per-level quantity
`total / cnt`; each of its legs sits at some level price
`pmin + i * price_step` (`i < cnt`) with side BUY below the midpoint and
SELL at or above it; every such leg price lies in `[pmin, pmax]`; and a
replacement step keeps all leg prices inside the record's own range. -/
theorem grid_levels_and_range_c8 :
    (∀ (symbol : String) (cnt : Nat) (pmin pmax totalQty : ℚ)
        (placeResult : Nat → Option Nat) (now : ℚ) (rec : GridRecord),
        place_grid_order symbol cnt pmin pmax totalQty placeResult now = some rec →
        rec.price_step = (pmax - pmin) / ((cnt : ℚ) - 1) ∧
        rec.quantity_per_level = totalQty / (cnt : ℚ) ∧
        (∀ l ∈ rec.orders, ∃ i < cnt,
            l.price = pmin + (i : ℚ) * ((pmax - pmin) / ((cnt : ℚ) - 1)) ∧
            l.side = (if l.price < (pmin + pmax) / 2 then "BUY" else "SELL") ∧
            l.quantity = totalQty / (cnt : ℚ)) ∧
        (∀ l ∈ rec.orders, pmin ≤ l.price ∧ l.price ≤ pmax)) ∧
    (∀ (g : GridRecord) (filled : GridLeg) (r : Option Nat),
        (∀ l ∈ g.orders, g.price_range_min ≤ l.price ∧ l.price ≤ g.price_range_max) →
        ∀ l ∈ (place_replacement_order g filled r).grid.orders,
          g.price_range_min ≤ l.price ∧ l.price ≤ g.price_range_max) := by
  constructor
  · intro symbol cnt pmin pmax totalQty placeResult now rec h
    by_cases hcnt : cnt < 2
    · rw [place_grid_order, if_pos hcnt] at h
      exact absurd h (by simp)
    by_cases hle : pmax ≤ pmin
    · rw [place_grid_order, if_neg hcnt, if_pos hle] at h
      exact absurd h (by simp)
    by_cases hnil : gridLegsPlaced cnt pmin pmax (totalQty / (cnt : ℚ)) placeResult = []
    · rw [place_grid_order, if_neg hcnt, if_neg hle, if_pos hnil] at h
      exact absurd h (by simp)
    rw [place_grid_order, if_neg hcnt, if_neg hle, if_neg hnil] at h
    have h2 : 2 ≤ cnt := Nat.not_lt.mp hcnt
    have hlt : pmin < pmax := not_le.mp hle
    have hrec := (Option.some.inj h).symm
    have hmem : ∀ l ∈ rec.orders, ∃ i < cnt,
        l.price = pmin + (i : ℚ) * ((pmax - pmin) / ((cnt : ℚ) - 1)) ∧
        l.side = (if l.price < (pmin + pmax) / 2 then "BUY" else "SELL") ∧
        l.quantity = totalQty / (cnt : ℚ) := by
      intro l hl
      rw [hrec] at hl
      simp only [gridLegsPlaced, List.mem_filterMap, List.mem_range,
        Option.map_eq_some'] at hl
      obtain ⟨i, hi, oid, _, hleg⟩ := hl
      refine ⟨i, hi, ?_, ?_, ?_⟩ <;> rw [← hleg]
    refine ⟨by rw [hrec], by rw [hrec], hmem, ?_⟩
    intro l hl
    obtain ⟨i, hi, hp, _, _⟩ := hmem l hl
    rw [hp]
    exact grid_level_price_bounds cnt pmin pmax h2 hlt i hi
  · intro g filled r hinv l hl
    simp only [place_replacement_order] at hl
    split at hl
    all_goals
      split at hl
      · exact hinv l hl
      next hrange =>
        rw [not_or, not_lt, not_lt] at hrange
        split at hl
        · exact hinv l hl
        · simp only [List.mem_append, List.mem_singleton] at hl
          rcases hl with hl | hl
          · exact hinv l hl
          · subst hl
            exact ⟨hrange.1, hrange.2⟩

/-- Creating the three-level grid with all placements succeeding yields
exactly `gridRecEx`. -/
lemma place_grid_order_ex :
    place_grid_order "BTCUSDT" 3 10 20 3 (fun i => some (i + 1)) 0 = some gridRecEx := by
  norm_num [place_grid_order, gridLegsPlaced, gridRecEx, List.range_succ,
    List.filterMap_cons]
  exact fun h => absurd h (List.cons_ne_nil _ _)

/-- Witness for C8: the concrete three-level grid has step 5 and its
middle leg's price is inside the range. -/
theorem grid_levels_and_range_c8_witness :
    gridRecEx.price_step = (20 - 10) / ((3 : ℚ) - 1) ∧
    (10 : ℚ) ≤ (GridLeg.mk 2 "SELL" 15 1 "active").price ∧
    (GridLeg.mk 2 "SELL" 15 1 "active").price ≤ 20 := by
  have h := grid_levels_and_range_c8.1 "BTCUSDT" 3 10 20 3 (fun i => some (i + 1)) 0
    gridRecEx place_grid_order_ex
  have hm := h.2.2.2 (GridLeg.mk 2 "SELL" 15 1 "active") (by simp [gridRecEx])
  exact ⟨h.1, hm.1, hm.2⟩

/-- C9 counterexample: with a filled-BUY volume of 1/2 the snapshot's
average buy price is 5 (the source divides by `max(volume, 1) = 1`), not
the volume-weighted average 10 that the claim specifies. -/
theorem grid_performance_vwap_c9_counterexample :
    filled_volume gridPerfEx "BUY" = 1 / 2 ∧
    (get_grid_performance gridPerfEx).avg_buy_price = 5 ∧
    vwap_of_side gridPerfEx "BUY" = 10 ∧
    (get_grid_performance gridPerfEx).avg_buy_price ≠ vwap_of_side gridPerfEx "BUY" := by
  norm_num [get_grid_performance, vwap_of_side, filled_volume, filled_notional,
    gridPerfEx, max_def, List.filter_cons,
    show ("SELL" : String) ≠ "BUY" from by decide]

/-- C9 (amended): the snapshot's per-side volume is the side's total
filled volume, its average prices divide the side's filled notional by
`max(volume, 1)` — hence they equal the side's volume-weighted average
exactly when that side's filled volume is at least 1 — and spread is
`avg_sell − avg_buy` when both computed averages are positive, else 0. -/
theorem grid_performance_amended_c9 :
    (∀ g : GridRecord,
        (get_grid_performance g).buy_volume = filled_volume g "BUY" ∧
        (get_grid_performance g).sell_volume = filled_volume g "SELL" ∧
        (get_grid_performance g).avg_buy_price =
          filled_notional g "BUY" / max (filled_volume g "BUY") 1 ∧
        (get_grid_performance g).avg_sell_price =
          filled_notional g "SELL" / max (filled_volume g "SELL") 1) ∧
    (∀ g : GridRecord, 1 ≤ filled_volume g "BUY" →
        (get_grid_performance g).avg_buy_price = vwap_of_side g "BUY") ∧
    (∀ g : GridRecord, 1 ≤ filled_volume g "SELL" →
        (get_grid_performance g).avg_sell_price = vwap_of_side g "SELL") ∧
    (∀ g : GridRecord, 0 < (get_grid_performance g).avg_sell_price →
        0 < (get_grid_performance g).avg_buy_price →
        (get_grid_performance g).spread =
          (get_grid_performance g).avg_sell_price -
            (get_grid_performance g).avg_buy_price) ∧
    (∀ g : GridRecord,
        ¬ (0 < (get_grid_performance g).avg_sell_price ∧
            0 < (get_grid_performance g).avg_buy_price) →
        (get_grid_performance g).spread = 0) := by
  refine ⟨fun g => ⟨rfl, rfl, rfl, rfl⟩, ?_, ?_, ?_, ?_⟩
  · intro g h
    simp only [get_grid_performance, vwap_of_side, max_eq_left h]
  · intro g h
    simp only [get_grid_performance, vwap_of_side, max_eq_left h]
  · intro g hs hb
    simp only [get_grid_performance] at hs hb ⊢
    rw [if_pos ⟨hs, hb⟩]
  · intro g hnot
    simp only [get_grid_performance] at hnot ⊢
    rw [if_neg hnot]

/-- Witness for C9 (amended): with filled volume 1 on the BUY side the
code's average buy price coincides with the volume-weighted average. -/
theorem grid_performance_amended_c9_witness :
    (get_grid_performance gridPerfEx2).avg_buy_price = vwap_of_side gridPerfEx2 "BUY" :=
  grid_performance_amended_c9.2.1 gridPerfEx2
    (by norm_num [filled_volume, gridPerfEx2, List.filter_cons,
      show ("SELL" : String) ≠ "BUY" from by decide])

/-- C10: grid cancellation has no ACTIVE gate — it succeeds on every
registered grid record regardless of status, re-issues a Gateway cancel
for every leg still recorded `"active"`, and overwrites `completed_time`
with the new cancellation time; OCO cancellation, in contrast, rejects a
non-ACTIVE record with no Gateway calls. -/
theorem grid_cancel_unconditional_c10 :
    (∀ (g : GridRecord) (cOk : Nat → Bool) (now : ℚ),
        (cancel_grid_order (some g) cOk now).ok = true) ∧
    (∀ (g : GridRecord) (cOk : Nat → Bool) (now : ℚ) (l : GridLeg),
        l ∈ g.orders → l.status = "active" →
        GwCall.cancelOrder g.symbol l.order_id ∈
          (cancel_grid_order (some g) cOk now).calls) ∧
    (∀ (g : GridRecord) (cOk : Nat → Bool) (now : ℚ) (g2 : GridRecord),
        (cancel_grid_order (some g) cOk now).record = some g2 →
        g2.status = "cancelled" ∧ g2.completed_time = some now) ∧
    (∀ (o : OcoRecord) (tOk sOk : Bool) (now : ℚ), o.status ≠ "active" →
        cancel_oco_order (some o) tOk sOk now = ⟨false, some o, []⟩) := by
  refine ⟨fun g cOk now => rfl, ?_, ?_, ?_⟩
  · intro g cOk now l hl hst
    simp only [cancel_grid_order, List.mem_map, List.mem_filter]
    exact ⟨l, ⟨hl, by simp [hst]⟩, rfl⟩
  · intro g cOk now g2 h2
    have : g2 = { g with
        orders := g.orders.map fun l =>
          if l.status = "active" ∧ cOk l.order_id then
            { l with status := "cancelled" }
          else l
        status := "cancelled", completed_time := some now } :=
      (Option.some.inj h2).symm
    subst this
    exact ⟨rfl, rfl⟩
  · intro o tOk sOk now h
    simp [cancel_oco_order, h]

/-- Witness for C10: cancelling the already-cancelled grid succeeds and
re-issues the Gateway cancel for its still-active leg, while cancelling
the already-cancelled OCO record fails with no Gateway calls. -/
theorem grid_cancel_unconditional_c10_witness :
    (cancel_grid_order (some gridCancelledEx) (fun _ => true) 99).ok = true ∧
    GwCall.cancelOrder gridCancelledEx.symbol 7 ∈
      (cancel_grid_order (some gridCancelledEx) (fun _ => true) 99).calls ∧
    cancel_oco_order (some ocoCancelledEx) true true 99 =
      ⟨false, some ocoCancelledEx, []⟩ := by
  refine ⟨grid_cancel_unconditional_c10.1 gridCancelledEx (fun _ => true) 99, ?_,
    grid_cancel_unconditional_c10.2.2.2 ocoCancelledEx true true 99 (by decide)⟩
  exact grid_cancel_unconditional_c10.2.1 gridCancelledEx (fun _ => true) 99
    (GridLeg.mk 7 "BUY" 12 1 "active") (by simp [gridCancelledEx]) rfl

end BinanceBot
